import Mathlib

/-!
Verification of the `gga-extract` crate (`src/lib.rs`), a fixed-format NMEA 0183
GGA decoder over a 1024-byte circular buffer.

Shallow embedding conventions:
* the circular buffer `[u8; 1024]` is a function `Nat → Nat`; every access in the
  source masks its index with `& 1023`, so only values at indices `< 1024` matter;
* the 10-byte output record `[u8; 10]` is a `List Nat`; in-place writes
  `position_block[k] = v` become `List.set k v`, and `extract_gga` returns the
  boolean result paired with the final record;
* machine integers are `Nat`/`Int` with explicit reduction: `u8` arithmetic is
  taken `% 256`, `u32` accumulation `% 4294967296`, and `usize` arithmetic
  `% 18446744073709551616` (release-profile wrapping semantics);
* `u8::saturating_add`/`saturating_mul` become `min 255 (a + b)` / `min 255 (a * b)`.
-/

/-- Index mask used throughout the source: `x & 1023` on a `usize` index. -/
def bmask (x : Nat) : Nat := x &&& 1023

/-- `is_gga` from `src/lib.rs`: reads the three bytes at offsets 3, 4, 5 from
`sentence_begin` (masked with `& 1023`) and compares them with `'G' = 71`,
`'G' = 71`, `'A' = 65`. -/
def is_gga (buffer : Nat → Nat) (sentence_begin : Nat) : Bool :=
  buffer (bmask (sentence_begin + 3)) == 71
    && buffer (bmask (sentence_begin + 4)) == 71
    && buffer (bmask (sentence_begin + 5)) == 65

/-- Wrapping `usize` arithmetic (release profile): the value of an integer
expression reduced modulo `2^64`.  A chain of `usize` additions and
subtractions wraps at each step; composing the per-operation reductions is the
same as reducing the whole integer expression once, which is how it is used
below. -/
def usizeWrap (x : Int) : Nat := (x % 18446744073709551616).toNat

/-- `calculate_sentence_length` from `src/lib.rs`.  `ndtr` is the `u16`
remaining-transfer counter cast to `usize`; the branch condition and the two
arithmetic expressions are `usize` operations, hence wrap modulo `2^64`. -/
def calculate_sentence_length (ndtr : Nat) (sentence_begin : Nat) : Nat :=
  if (sentence_begin + ndtr) % 18446744073709551616 < 1024 then
    usizeWrap ((1024 : Int) - ndtr - sentence_begin)
  else
    usizeWrap (((1024 : Int) - sentence_begin) + ((1024 : Int) - ndtr))

/-- The `u8` value of `byte - b'0'` (wrapping subtraction of `48` modulo 256,
written as addition of `208 = 256 - 48`). -/
def digitVal (b : Nat) : Nat := (b + 208) % 256

/-- `extract_gga` from `src/lib.rs`, translated statement by statement.
`POW10_10_DIGITS` is the source array
`[10^9, 10^8, ..., 10, 1]`; its entries appear inline.  Each
`lat += (byte - b'0') as u32 * POW10_10_DIGITS[k]` first wraps the `u32`
multiplication and then the `u32` addition modulo `2^32 = 4294967296`.
The record is returned unchanged on the two early `return false` paths. -/
def extract_gga (buffer : Nat → Nat) (sentence_begin : Nat)
    (position_block : List Nat) : Bool × List Nat :=
  -- Start in time field
  let i := bmask (sentence_begin + 7)
  if buffer i = 44 then
    -- No time field, assume no fix
    (false, position_block)
  else
    -- Skip time field: go into latitude field (TIME_FIELD_SKIP = 11)
    let i := bmask (i + 11)
    if buffer i = 44 then
      -- No latitude field, no fix
      (false, position_block)
    else
      -- Parse latitude
      let lat : Nat := 0
      let lat := (lat + digitVal (buffer i) * 1000000000 % 4294967296) % 4294967296
      let i := bmask (i + 1)
      let lat := (lat + digitVal (buffer i) * 100000000 % 4294967296) % 4294967296
      let i := bmask (i + 1)
      let lat := (lat + digitVal (buffer i) * 10000000 % 4294967296) % 4294967296
      let i := bmask (i + 1)
      let lat := (lat + digitVal (buffer i) * 1000000 % 4294967296) % 4294967296
      let i := bmask (i + 2) -- Skip decimal point
      let lat := (lat + digitVal (buffer i) * 100000 % 4294967296) % 4294967296
      let i := bmask (i + 1)
      let lat := (lat + digitVal (buffer i) * 10000 % 4294967296) % 4294967296
      let i := bmask (i + 1)
      let lat := (lat + digitVal (buffer i) * 1000 % 4294967296) % 4294967296
      let i := bmask (i + 1)
      let lat := (lat + digitVal (buffer i) * 100 % 4294967296) % 4294967296
      let i := bmask (i + 1)
      let lat := (lat + digitVal (buffer i) * 10 % 4294967296) % 4294967296
      let position_block := position_block.set 0 (lat / 16777216 % 256)
      let position_block := position_block.set 1 (lat / 65536 % 256)
      let position_block := position_block.set 2 (lat / 256 % 256)
      let position_block := position_block.set 3 (lat % 256)
      let i := bmask (i + 2)
      -- Latitude hemisphere
      let position_block :=
        position_block.set 8 ((if buffer i = 78 then 1 else 0) <<< 1)
      let i := bmask (i + 2)
      -- Parse longitude
      let lon : Nat := 0
      let lon := (lon + digitVal (buffer i) * 1000000000 % 4294967296) % 4294967296
      let i := bmask (i + 1)
      let lon := (lon + digitVal (buffer i) * 100000000 % 4294967296) % 4294967296
      let i := bmask (i + 1)
      let lon := (lon + digitVal (buffer i) * 10000000 % 4294967296) % 4294967296
      let i := bmask (i + 1)
      let lon := (lon + digitVal (buffer i) * 1000000 % 4294967296) % 4294967296
      let i := bmask (i + 1)
      let lon := (lon + digitVal (buffer i) * 100000 % 4294967296) % 4294967296
      let i := bmask (i + 2) -- Skip decimal point
      let lon := (lon + digitVal (buffer i) * 10000 % 4294967296) % 4294967296
      let i := bmask (i + 1)
      let lon := (lon + digitVal (buffer i) * 1000 % 4294967296) % 4294967296
      let i := bmask (i + 1)
      let lon := (lon + digitVal (buffer i) * 100 % 4294967296) % 4294967296
      let i := bmask (i + 1)
      let lon := (lon + digitVal (buffer i) * 10 % 4294967296) % 4294967296
      let i := bmask (i + 1)
      let lon := (lon + digitVal (buffer i) * 1 % 4294967296) % 4294967296
      let position_block := position_block.set 4 (lon / 16777216 % 256)
      let position_block := position_block.set 5 (lon / 65536 % 256)
      let position_block := position_block.set 6 (lon / 256 % 256)
      let position_block := position_block.set 7 (lon % 256)
      let i := bmask (i + 2)
      -- Longitude hemisphere
      let position_block :=
        position_block.set 8
          (position_block.getD 8 0 ||| (if buffer i = 69 then 1 else 0))
      let i := bmask (i + 7)
      -- HDOP
      let hdop : Nat := 0
      if buffer (bmask (i + 1)) = 46 then
        -- Integer part is single digit
        let hdop := (hdop + digitVal (buffer i) * 10 % 256) % 256
        let i := bmask (i + 2) -- Skip decimal point
        let hdop := (hdop + digitVal (buffer i)) % 256
        (true, position_block.set 9 hdop)
      else
        -- Integer part is double digit
        let hdop := min 255 (hdop + min 255 (digitVal (buffer i) * 100))
        let i := bmask (i + 1)
        let hdop := min 255 (hdop + digitVal (buffer i) * 10 % 256)
        let i := bmask (i + 2) -- Skip decimal point
        let hdop := min 255 (hdop + digitVal (buffer i))
        (true, position_block.set 9 hdop)

/-- The value of the `lat` accumulator of `extract_gga` after the latitude
parsing block, as a function of the buffer and the start index: the nine
latitude digit bytes live at offsets 18, 19, 20, 21, 23, 24, 25, 26, 27 from
`sentence_begin` (offset 22 is the skipped decimal point) and are accumulated
with the weights `POW10_10_DIGITS[0]..POW10_10_DIGITS[8]`, i.e. `10^9..10^1`,
wrapping modulo `2^32`.  The lemmas `extract_gga_run_single` and
`extract_gga_run_double` prove this is exactly what the source computes. -/
def latAcc (buf : Nat → Nat) (sb : Nat) : Nat :=
  (((((((((0
    + digitVal (buf ((sb + 18) % 1024)) * 1000000000 % 4294967296) % 4294967296
    + digitVal (buf ((sb + 19) % 1024)) * 100000000 % 4294967296) % 4294967296
    + digitVal (buf ((sb + 20) % 1024)) * 10000000 % 4294967296) % 4294967296
    + digitVal (buf ((sb + 21) % 1024)) * 1000000 % 4294967296) % 4294967296
    + digitVal (buf ((sb + 23) % 1024)) * 100000 % 4294967296) % 4294967296
    + digitVal (buf ((sb + 24) % 1024)) * 10000 % 4294967296) % 4294967296
    + digitVal (buf ((sb + 25) % 1024)) * 1000 % 4294967296) % 4294967296
    + digitVal (buf ((sb + 26) % 1024)) * 100 % 4294967296) % 4294967296
    + digitVal (buf ((sb + 27) % 1024)) * 10 % 4294967296) % 4294967296

/-- The value of the `lon` accumulator of `extract_gga` after the longitude
parsing block: the ten longitude digit bytes live at offsets
31, 32, 33, 34, 35, 37, 38, 39, 40, 41 (offset 36 is the skipped decimal
point) and are accumulated with weights `10^9..10^0`, wrapping modulo
`2^32`. -/
def lonAcc (buf : Nat → Nat) (sb : Nat) : Nat :=
  ((((((((((0
    + digitVal (buf ((sb + 31) % 1024)) * 1000000000 % 4294967296) % 4294967296
    + digitVal (buf ((sb + 32) % 1024)) * 100000000 % 4294967296) % 4294967296
    + digitVal (buf ((sb + 33) % 1024)) * 10000000 % 4294967296) % 4294967296
    + digitVal (buf ((sb + 34) % 1024)) * 1000000 % 4294967296) % 4294967296
    + digitVal (buf ((sb + 35) % 1024)) * 100000 % 4294967296) % 4294967296
    + digitVal (buf ((sb + 37) % 1024)) * 10000 % 4294967296) % 4294967296
    + digitVal (buf ((sb + 38) % 1024)) * 1000 % 4294967296) % 4294967296
    + digitVal (buf ((sb + 39) % 1024)) * 100 % 4294967296) % 4294967296
    + digitVal (buf ((sb + 40) % 1024)) * 10 % 4294967296) % 4294967296
    + digitVal (buf ((sb + 41) % 1024)) * 1 % 4294967296) % 4294967296

/-- The value of byte 8 of the record written by `extract_gga`: the latitude
hemisphere byte lives at offset 29 and sets bit 1 when it is `'N' = 78`; the
longitude hemisphere byte lives at offset 43 and is ORed into bit 0 when it is
`'E' = 69`. -/
def hemByte (buf : Nat → Nat) (sb : Nat) : Nat :=
  ((if buf ((sb + 29) % 1024) = 78 then 1 else 0) <<< 1)
    ||| (if buf ((sb + 43) % 1024) = 69 then 1 else 0)

/-- The value of byte 9 of the record written by `extract_gga` when the HDOP
integer part is a single digit (the byte at offset 51 is `'.' = 46`): plain
(wrapping) `u8` arithmetic on the digit at offset 50 and the fractional digit
at offset 52. -/
def hdopSingle (buf : Nat → Nat) (sb : Nat) : Nat :=
  ((0 + digitVal (buf ((sb + 50) % 1024)) * 10 % 256) % 256
    + digitVal (buf ((sb + 52) % 1024))) % 256

/-- The value of byte 9 of the record written by `extract_gga` when the HDOP
integer part is two digits (the byte at offset 51 is not `'.'`): saturating
`u8` arithmetic on the digits at offsets 50, 51 and the fractional digit at
offset 53 (the `* 10` multiplication is the source's plain wrapping one). -/
def hdopDouble (buf : Nat → Nat) (sb : Nat) : Nat :=
  min 255 (min 255 (min 255 (0 + min 255 (digitVal (buf ((sb + 50) % 1024)) * 100))
    + digitVal (buf ((sb + 51) % 1024)) * 10 % 256)
    + digitVal (buf ((sb + 53) % 1024)))

/-- The test sentence
`$GNGGA,051200.993,2734.21973,S,15303.08927,E,1,07,2.8,103.4,M,41.1,M,,*59\r\n`
as ASCII bytes (75 bytes). -/
def S1 : List Nat :=
  [36, 71, 78, 71, 71, 65, 44, 48, 53, 49, 50, 48, 48, 46, 57, 57, 51, 44, 50,
   55, 51, 52, 46, 50, 49, 57, 55, 51, 44, 83, 44, 49, 53, 51, 48, 51, 46, 48,
   56, 57, 50, 55, 44, 69, 44, 49, 44, 48, 55, 44, 50, 46, 56, 44, 49, 48, 51,
   46, 52, 44, 77, 44, 52, 49, 46, 49, 44, 77, 44, 44, 42, 53, 57, 13, 10]

/-- The test sentence `$GNGGA,,,,,,0,00,25.5,,,,,,*64\r\n` (empty time field)
as ASCII bytes (32 bytes). -/
def S2 : List Nat :=
  [36, 71, 78, 71, 71, 65, 44, 44, 44, 44, 44, 44, 48, 44, 48, 48, 44, 50, 53,
   46, 53, 44, 44, 44, 44, 44, 44, 42, 54, 52, 13, 10]

/-- The test sentence `$GNGGA,051154.000,,,,,0,00,25.5,,,,,,*7E\r\n`
(time present, empty latitude field) as ASCII bytes (42 bytes). -/
def S3 : List Nat :=
  [36, 71, 78, 71, 71, 65, 44, 48, 53, 49, 49, 53, 52, 46, 48, 48, 48, 44, 44,
   44, 44, 44, 48, 44, 48, 48, 44, 50, 53, 46, 53, 44, 44, 44, 44, 44, 44, 42,
   55, 69, 13, 10]

/-- The test sentence
`$GNGGA,181501.000,3615.12012,S,06357.25158,W,1,03,39.9,84.6,M,41.1,M,,*6E\r\n`
(double-digit HDOP integer part) as ASCII bytes (75 bytes). -/
def S5 : List Nat :=
  [36, 71, 78, 71, 71, 65, 44, 49, 56, 49, 53, 48, 49, 46, 48, 48, 48, 44, 51,
   54, 49, 53, 46, 49, 50, 48, 49, 50, 44, 83, 44, 48, 54, 51, 53, 55, 46, 50,
   53, 49, 53, 56, 44, 87, 44, 49, 44, 48, 51, 44, 51, 57, 46, 57, 44, 56, 52,
   46, 54, 44, 77, 44, 52, 49, 46, 49, 44, 77, 44, 44, 42, 54, 69, 13, 10]

/-- The circular buffer obtained by writing sentence `S` into an all-zero
1024-byte buffer starting at index `r` (the `shift_buffer` helper of the
source's test module): slot `j` holds `S[(j - r) mod 1024]` when that offset
is inside the sentence, and `0` otherwise. -/
def rotBuf (S : List Nat) (r : Nat) : Nat → Nat :=
  fun j => S.getD ((j + 1024 - r % 1024) % 1024) 0

-- Sanity checks: the embedding evaluated on the source's own unit-test
-- vectors reproduces the expected results.
example : extract_gga (rotBuf S1 0) 0 (List.replicate 10 0)
    = (true, [162, 248, 225, 210, 91, 54, 169, 63, 1, 28]) := by rfl

example : extract_gga (rotBuf S2 0) 0 (List.replicate 10 0)
    = (false, List.replicate 10 0) := by rfl

example : extract_gga (rotBuf S3 0) 0 (List.replicate 10 0)
    = (false, List.replicate 10 0) := by rfl

example : extract_gga (rotBuf S5 0) 0 (List.replicate 10 0)
    = (true, [215, 122, 90, 248, 37, 228, 101, 102, 0, 255]) := by rfl

example : is_gga (rotBuf S1 0) 0 = true := by rfl

example : calculate_sentence_length 949 0 = 75 := by rfl

theorem bmask_eq_mod (x : Nat) : bmask x = x % 1024 := by
  have h := Nat.and_pow_two_sub_one_eq_mod x 10
  norm_num at h
  exact h

/-- Every value of the index mask is strictly below the capacity 1024. -/
theorem bmask_lt (x : Nat) : bmask x < 1024 := by
  rw [bmask_eq_mod]
  omega

/-- Collapsing two nested reductions modulo the capacity. -/
theorem mod1024_add (a b : Nat) : (a % 1024 + b) % 1024 = (a + b) % 1024 :=
  Nat.mod_add_mod a 1024 b

theorem rotBuf_read (S : List Nat) (r c : Nat) :
    rotBuf S r ((r + c) % 1024) = S.getD (c % 1024) 0 := by
  unfold rotBuf
  congr 1
  omega

/-- `is_gga` only depends on the bytes it reads at masked offsets from
`sentence_begin`: shifting both the buffer contents and the start index in the
same way preserves the result. -/
theorem is_gga_congr (buf buf2 : Nat → Nat) (sb sb2 : Nat)
    (h : ∀ c, buf2 ((sb2 + c) % 1024) = buf ((sb + c) % 1024)) :
    is_gga buf2 sb2 = is_gga buf sb := by
  simp only [is_gga, bmask_eq_mod, h]

/-- `extract_gga` only depends on the bytes it reads at masked offsets from
`sentence_begin`: shifting both the buffer contents and the start index in the
same way preserves the result (boolean and record alike). -/
theorem extract_gga_congr (buf buf2 : Nat → Nat) (sb sb2 : Nat)
    (pb : List Nat)
    (h : ∀ c, buf2 ((sb2 + c) % 1024) = buf ((sb + c) % 1024)) :
    extract_gga buf2 sb2 pb = extract_gga buf sb pb := by
  simp only [extract_gga, bmask_eq_mod, Nat.mod_add_mod, Nat.add_assoc,
    Nat.reduceAdd, h]

/-- A list of length 10 is an explicit 10-element list. -/
theorem exists_ten (pb : List Nat) (hp : pb.length = 10) :
    ∃ a b c d e f g h i j, pb = [a, b, c, d, e, f, g, h, i, j] := by
  rcases pb with _ | ⟨a, pb⟩
  · simp at hp
  rcases pb with _ | ⟨b, pb⟩
  · simp at hp
  rcases pb with _ | ⟨c, pb⟩
  · simp at hp
  rcases pb with _ | ⟨d, pb⟩
  · simp at hp
  rcases pb with _ | ⟨e, pb⟩
  · simp at hp
  rcases pb with _ | ⟨f, pb⟩
  · simp at hp
  rcases pb with _ | ⟨g, pb⟩
  · simp at hp
  rcases pb with _ | ⟨h, pb⟩
  · simp at hp
  rcases pb with _ | ⟨i, pb⟩
  · simp at hp
  rcases pb with _ | ⟨j, pb⟩
  · simp at hp
  rcases pb with _ | ⟨k, pb⟩
  · exact ⟨a, b, c, d, e, f, g, h, i, j, rfl⟩
  · simp at hp

/-- Running `extract_gga` on a sentence with nonempty time and latitude fields
and a single-digit HDOP integer part (byte at offset 51 is `'.'`) returns
`true` and writes all ten record bytes: latitude bytes 0-3 are the big-endian
bytes of `latAcc`, longitude bytes 4-7 the big-endian bytes of `lonAcc`,
byte 8 is `hemByte` and byte 9 is `hdopSingle`. -/
theorem extract_gga_run_single (buf : Nat → Nat) (sb : Nat)
    (x0 x1 x2 x3 x4 x5 x6 x7 x8 x9 : Nat)
    (ht : ¬ buf ((sb + 7) % 1024) = 44)
    (hl : ¬ buf ((sb + 18) % 1024) = 44)
    (hdot : buf ((sb + 51) % 1024) = 46) :
    extract_gga buf sb [x0, x1, x2, x3, x4, x5, x6, x7, x8, x9] =
      (true,
        [latAcc buf sb / 16777216 % 256, latAcc buf sb / 65536 % 256,
         latAcc buf sb / 256 % 256, latAcc buf sb % 256,
         lonAcc buf sb / 16777216 % 256, lonAcc buf sb / 65536 % 256,
         lonAcc buf sb / 256 % 256, lonAcc buf sb % 256,
         hemByte buf sb, hdopSingle buf sb]) := by
  simp only [extract_gga, bmask_eq_mod, mod1024_add, Nat.add_assoc,
    Nat.reduceAdd]
  rw [if_neg ht, if_neg hl, if_pos hdot]
  rfl

/-- Running `extract_gga` on a sentence with nonempty time and latitude fields
and a two-digit HDOP integer part (byte at offset 51 is not `'.'`) returns
`true` and writes all ten record bytes, with byte 9 given by the saturating
`hdopDouble`. -/
theorem extract_gga_run_double (buf : Nat → Nat) (sb : Nat)
    (x0 x1 x2 x3 x4 x5 x6 x7 x8 x9 : Nat)
    (ht : ¬ buf ((sb + 7) % 1024) = 44)
    (hl : ¬ buf ((sb + 18) % 1024) = 44)
    (hdot : ¬ buf ((sb + 51) % 1024) = 46) :
    extract_gga buf sb [x0, x1, x2, x3, x4, x5, x6, x7, x8, x9] =
      (true,
        [latAcc buf sb / 16777216 % 256, latAcc buf sb / 65536 % 256,
         latAcc buf sb / 256 % 256, latAcc buf sb % 256,
         lonAcc buf sb / 16777216 % 256, lonAcc buf sb / 65536 % 256,
         lonAcc buf sb / 256 % 256, lonAcc buf sb % 256,
         hemByte buf sb, hdopDouble buf sb]) := by
  simp only [extract_gga, bmask_eq_mod, mod1024_add, Nat.add_assoc,
    Nat.reduceAdd]
  rw [if_neg ht, if_neg hl, if_neg hdot]
  rfl

/-- The wrapped value of any `usize` expression is a valid `usize`. -/
theorem usizeWrap_lt (x : Int) : usizeWrap x < 18446744073709551616 := by
  unfold usizeWrap
  omega

/-- Reading the record component of the result pair. -/
theorem snd_getD (bb : Bool) (l : List Nat) (k : Nat) :
    (Prod.mk bb l).2.getD k 0 = l.getD k 0 := rfl

theorem getD10_0 (v0 v1 v2 v3 v4 v5 v6 v7 v8 v9 : Nat) :
    List.getD [v0, v1, v2, v3, v4, v5, v6, v7, v8, v9] 0 0 = v0 := rfl

theorem getD10_1 (v0 v1 v2 v3 v4 v5 v6 v7 v8 v9 : Nat) :
    List.getD [v0, v1, v2, v3, v4, v5, v6, v7, v8, v9] 1 0 = v1 := rfl

theorem getD10_2 (v0 v1 v2 v3 v4 v5 v6 v7 v8 v9 : Nat) :
    List.getD [v0, v1, v2, v3, v4, v5, v6, v7, v8, v9] 2 0 = v2 := rfl

theorem getD10_3 (v0 v1 v2 v3 v4 v5 v6 v7 v8 v9 : Nat) :
    List.getD [v0, v1, v2, v3, v4, v5, v6, v7, v8, v9] 3 0 = v3 := rfl

theorem getD10_8 (v0 v1 v2 v3 v4 v5 v6 v7 v8 v9 : Nat) :
    List.getD [v0, v1, v2, v3, v4, v5, v6, v7, v8, v9] 8 0 = v8 := rfl

theorem getD10_9 (v0 v1 v2 v3 v4 v5 v6 v7 v8 v9 : Nat) :
    List.getD [v0, v1, v2, v3, v4, v5, v6, v7, v8, v9] 9 0 = v9 := rfl

/-- The `u8` value of `byte - b'0'` on an ASCII digit byte is the digit. -/
theorem digitVal_digit (d : Nat) (hd : d ≤ 9) : digitVal (48 + d) = d := by
  unfold digitVal
  omega

/-- When the nine latitude byte positions hold ASCII digits `48 + d_k`, the
latitude accumulator is the digit string weighted by `10^9 .. 10^1`, reduced
modulo `2^32`. -/
theorem latAcc_digits (buf : Nat → Nat) (sb : Nat)
    (d0 d1 d2 d3 d4 d5 d6 d7 d8 : Nat)
    (h0 : buf ((sb + 18) % 1024) = 48 + d0) (e0 : d0 ≤ 9)
    (h1 : buf ((sb + 19) % 1024) = 48 + d1) (e1 : d1 ≤ 9)
    (h2 : buf ((sb + 20) % 1024) = 48 + d2) (e2 : d2 ≤ 9)
    (h3 : buf ((sb + 21) % 1024) = 48 + d3) (e3 : d3 ≤ 9)
    (h4 : buf ((sb + 23) % 1024) = 48 + d4) (e4 : d4 ≤ 9)
    (h5 : buf ((sb + 24) % 1024) = 48 + d5) (e5 : d5 ≤ 9)
    (h6 : buf ((sb + 25) % 1024) = 48 + d6) (e6 : d6 ≤ 9)
    (h7 : buf ((sb + 26) % 1024) = 48 + d7) (e7 : d7 ≤ 9)
    (h8 : buf ((sb + 27) % 1024) = 48 + d8) (e8 : d8 ≤ 9) :
    latAcc buf sb =
      (d0 * 1000000000 + d1 * 100000000 + d2 * 10000000 + d3 * 1000000 +
        d4 * 100000 + d5 * 10000 + d6 * 1000 + d7 * 100 + d8 * 10) %
        4294967296 := by
  have mm : ∀ n : Nat, n % 4294967296 % 4294967296 = n % 4294967296 :=
    fun n => Nat.mod_mod_of_dvd n dvd_rfl
  unfold latAcc
  rw [h0, h1, h2, h3, h4, h5, h6, h7, h8, digitVal_digit d0 e0,
    digitVal_digit d1 e1, digitVal_digit d2 e2, digitVal_digit d3 e3,
    digitVal_digit d4 e4, digitVal_digit d5 e5, digitVal_digit d6 e6,
    digitVal_digit d7 e7, digitVal_digit d8 e8]
  simp only [Nat.zero_add, mm, ← Nat.add_mod]

/-- `hemByte` as a plain sum of the two flag bits. -/
theorem hemByte_eq (buf : Nat → Nat) (sb : Nat) :
    hemByte buf sb = (if buf ((sb + 29) % 1024) = 78 then 2 else 0)
      + (if buf ((sb + 43) % 1024) = 69 then 1 else 0) := by
  unfold hemByte
  by_cases h1 : buf ((sb + 29) % 1024) = 78 <;>
    by_cases h2 : buf ((sb + 43) % 1024) = 69 <;>
      simp [h1, h2]

/-- When the HDOP bytes around a single-digit integer part are ASCII digits,
byte 9 is the saturated tenths value (saturation never bites here since the
value is at most 99). -/
theorem hdopSingle_digits (buf : Nat → Nat) (sb : Nat) (d1 f1 : Nat)
    (h50 : buf ((sb + 50) % 1024) = 48 + d1) (hd1 : d1 ≤ 9)
    (h52 : buf ((sb + 52) % 1024) = 48 + f1) (hf1 : f1 ≤ 9) :
    hdopSingle buf sb = min 255 (d1 * 10 + f1) := by
  unfold hdopSingle
  rw [h50, h52, digitVal_digit d1 hd1, digitVal_digit f1 hf1]
  omega

/-- When the HDOP bytes around a two-digit integer part are ASCII digits,
byte 9 is the saturated tenths value `min 255 ((10*d1 + d2)*10 + f1)`. -/
theorem hdopDouble_digits (buf : Nat → Nat) (sb : Nat) (d1 d2 f1 : Nat)
    (h50 : buf ((sb + 50) % 1024) = 48 + d1) (hd1 : d1 ≤ 9)
    (h51 : buf ((sb + 51) % 1024) = 48 + d2) (hd2 : d2 ≤ 9)
    (h53 : buf ((sb + 53) % 1024) = 48 + f1) (hf1 : f1 ≤ 9) :
    hdopDouble buf sb = min 255 ((d1 * 10 + d2) * 10 + f1) := by
  unfold hdopDouble
  rw [h50, h51, h53, digitVal_digit d1 hd1, digitVal_digit d2 hd2,
    digitVal_digit f1 hf1]
  have hm : d2 * 10 % 256 = d2 * 10 := Nat.mod_eq_of_lt (by omega)
  rw [hm]
  simp only [Nat.min_def]
  split_ifs <;> omega

/-- Big-endian byte reconstruction of a `u32` value. -/
theorem byte_recompose (n : Nat) (hn : n < 4294967296) :
    n / 16777216 % 256 * 16777216 + n / 65536 % 256 * 65536 +
      n / 256 % 256 * 256 + n % 256 = n := by
  omega

/-- C5: for every buffer and every sentence_begin, `is_gga` reads exactly the
three bytes at indices `(sentence_begin+3)`, `(sentence_begin+4)`,
`(sentence_begin+5)`, each taken modulo the capacity 1024, and returns `true`
iff those bytes equal `'G' = 71`, `'G' = 71`, `'A' = 65`; any two buffers that
agree on those three bytes give the same result (no other byte is read, no
side effects, no error path). -/
theorem c5_is_gga_reads (buffer : Nat → Nat) (sb : Nat) :
    (is_gga buffer sb = true ↔
      buffer ((sb + 3) % 1024) = 71 ∧ buffer ((sb + 4) % 1024) = 71 ∧
        buffer ((sb + 5) % 1024) = 65) ∧
    ∀ buffer2 : Nat → Nat,
      buffer2 ((sb + 3) % 1024) = buffer ((sb + 3) % 1024) →
      buffer2 ((sb + 4) % 1024) = buffer ((sb + 4) % 1024) →
      buffer2 ((sb + 5) % 1024) = buffer ((sb + 5) % 1024) →
      is_gga buffer2 sb = is_gga buffer sb := by
  constructor
  · simp [is_gga, bmask_eq_mod, Bool.and_eq_true, and_assoc]
  · intro buffer2 h3 h4 h5
    simp only [is_gga, bmask_eq_mod, h3, h4, h5]

/-- Witness for C5 at a concrete input: the test sentence written at offset 0
is classified as GGA. -/
theorem c5_witness : is_gga (rotBuf S1 0) 0 = true :=
  (c5_is_gga_reads (rotBuf S1 0) 0).1.mpr ⟨by rfl, by rfl, by rfl⟩

/-- C2: `calculate_sentence_length` is a pure total function: it takes no
buffer argument at all (no buffer access) and, for every value of the
remaining-transfer counter (including every `u16` value above the capacity
1024, where the `usize` subtraction `1024 - ndtr` wraps) and every
`sentence_begin`, it returns a valid `usize` value.  Modeled with
release-profile (wrapping) `usize` arithmetic; the totality of the Lean
function is the no-failure claim. -/
theorem c2_total (ndtr sentence_begin : Nat) :
    calculate_sentence_length ndtr sentence_begin < 18446744073709551616 := by
  unfold calculate_sentence_length
  split
  · exact usizeWrap_lt _
  · exact usizeWrap_lt _

/-- C6 counterexample: at `ndtr = 3000`, `sentence_begin = 0` the claimed
formula `(1024 - sentence_begin) + (1024 - ndtr)` equals `-952` as integers
(and `1024` under truncated natural subtraction), but the code's wrapping
`usize` arithmetic returns `2^64 - 952`. -/
theorem c6_counterexample :
    calculate_sentence_length 3000 0 ≠ (1024 - 0) + (1024 - 3000 : Nat) ∧
    (calculate_sentence_length 3000 0 : Int) ≠
      ((1024 : Int) - 0) + ((1024 : Int) - 3000) := by
  constructor
  · decide
  · decide

/-- C6 (amended): for every `ndtr ≤ 1024` and `sentence_begin < 1024` (the
intended operating domain: the counter never exceeds the capacity and the
cursor is in range, so no `usize` subtraction wraps), if
`sentence_begin + ndtr < 1024` then `calculate_sentence_length` returns
`1024 - ndtr - sentence_begin`, otherwise it returns
`(1024 - sentence_begin) + (1024 - ndtr)`. -/
theorem c6_branch_formula (ndtr sentence_begin : Nat)
    (h1 : ndtr ≤ 1024) (h2 : sentence_begin < 1024) :
    calculate_sentence_length ndtr sentence_begin =
      if sentence_begin + ndtr < 1024 then 1024 - ndtr - sentence_begin
      else (1024 - sentence_begin) + (1024 - ndtr) := by
  simp only [calculate_sentence_length, usizeWrap]
  split
  · split
    · omega
    · omega
  · split
    · omega
    · omega

/-- Witness for C6 (amended) at concrete inputs, one per branch. -/
theorem c6_witness :
    calculate_sentence_length 949 0 =
      (if 0 + 949 < 1024 then 1024 - 949 - 0 else (1024 - 0) + (1024 - 949)) ∧
    calculate_sentence_length 1000 500 =
      (if 500 + 1000 < 1024 then 1024 - 1000 - 500
       else (1024 - 500) + (1024 - 1000)) :=
  ⟨c6_branch_formula 949 0 (by decide) (by decide),
   c6_branch_formula 1000 500 (by decide) (by decide)⟩

/-- C9: length round-trip.  For every `sentence_begin < 1024` and every actual
sentence length `L` with `1 ≤ L ≤ 1023`, feeding the decremented counter
snapshot `ndtr = (1024 - (sentence_begin + L) % 1024) % 1024` (so that
`sentence_begin + ndtr + L ≡ 0 [MOD 1024]`) to `calculate_sentence_length`
recovers exactly `L`; hence advancing the cursor by the computed length
reproduces every chosen length, including across buffer wrap-around. -/
theorem c9_roundtrip (sentence_begin L : Nat) (h1 : sentence_begin < 1024)
    (h2 : 1 ≤ L) (h3 : L ≤ 1023) :
    calculate_sentence_length
      ((1024 - (sentence_begin + L) % 1024) % 1024) sentence_begin = L := by
  simp only [calculate_sentence_length, usizeWrap]
  split
  · omega
  · omega

/-- Witness for C9 at a concrete input: a 75-byte sentence starting at index
1000 wraps around the buffer end and its length is still recovered. -/
theorem c9_witness :
    calculate_sentence_length ((1024 - (1000 + 75) % 1024) % 1024) 1000 = 75 :=
  c9_roundtrip 1000 75 (by decide) (by decide) (by decide)

/-- C3: for every rotation offset `r < 1024`, writing the known fixed sentence
into the 1024-byte circular buffer starting at index `r` and calling
`extract_gga` with `sentence_begin = r` returns `true` and leaves the
10-byte record equal to `[162, 248, 225, 210, 91, 54, 169, 63, 1, 28]`. -/
theorem c3_known_fix_decoding (r : Nat) (hr : r < 1024) (pb : List Nat)
    (hp : pb.length = 10) :
    extract_gga (rotBuf S1 r) r pb =
      (true, [162, 248, 225, 210, 91, 54, 169, 63, 1, 28]) := by
  obtain ⟨a, b, c, d, e, f, g, h, i, j, rfl⟩ := exists_ten pb hp
  have hcong : ∀ c2, rotBuf S1 r ((r + c2) % 1024)
      = rotBuf S1 0 ((0 + c2) % 1024) := by
    intro c2
    rw [rotBuf_read S1 r c2, rotBuf_read S1 0 c2]
  rw [extract_gga_congr (rotBuf S1 0) (rotBuf S1 r) 0 r _ hcong]
  rw [extract_gga_run_single (rotBuf S1 0) 0 a b c d e f g h i j
    (by decide) (by decide) (by rfl)]
  rfl

/-- Witness for C3 at the concrete rotation `r = 973` (the sentence wraps
around the end of the buffer) and a nonzero concrete initial record. -/
theorem c3_witness :
    extract_gga (rotBuf S1 973) 973 [9, 9, 9, 9, 9, 9, 9, 9, 9, 9] =
      (true, [162, 248, 225, 210, 91, 54, 169, 63, 1, 28]) :=
  c3_known_fix_decoding 973 (by decide) [9, 9, 9, 9, 9, 9, 9, 9, 9, 9]
    (by decide)

/-- C10: every buffer index used inside `is_gga` and `extract_gga` is masked
with `& 1023` and is therefore below the buffer length 1024 (first conjunct:
the mask is bounded, so no access — including the one checked access in the
HDOP branch — can be out of bounds); consequently both functions return the
same result as for `sentence_begin % 1024` (second conjunct), and their
results only depend on the buffer values at indices below 1024 (third
conjunct). -/
theorem c10_in_bounds (buf buf2 : Nat → Nat) (sb : Nat) (pb : List Nat) :
    (∀ x, bmask x < 1024) ∧
    (extract_gga buf sb pb = extract_gga buf (sb % 1024) pb ∧
      is_gga buf sb = is_gga buf (sb % 1024)) ∧
    ((∀ j, j < 1024 → buf2 j = buf j) →
      extract_gga buf2 sb pb = extract_gga buf sb pb ∧
      is_gga buf2 sb = is_gga buf sb) := by
  refine ⟨bmask_lt, ⟨?_, ?_⟩, fun hb => ⟨?_, ?_⟩⟩
  · refine (extract_gga_congr buf buf sb (sb % 1024) pb ?_).symm
    intro c
    have hc : (sb % 1024 + c) % 1024 = (sb + c) % 1024 := by omega
    rw [hc]
  · refine (is_gga_congr buf buf sb (sb % 1024) ?_).symm
    intro c
    have hc : (sb % 1024 + c) % 1024 = (sb + c) % 1024 := by omega
    rw [hc]
  · refine extract_gga_congr buf buf2 sb sb pb ?_
    intro c
    exact hb _ (by omega)
  · refine is_gga_congr buf buf2 sb sb ?_
    intro c
    exact hb _ (by omega)

/-- Witness for C10 at concrete inputs: a start index `1027 ≥ 1024` gives the
same decode as `1027 % 1024 = 3`, and replacing the buffer by one that agrees
on all indices below 1024 changes nothing. -/
theorem c10_witness :
    (extract_gga (rotBuf S1 3) 1027 (List.replicate 10 0)
      = extract_gga (rotBuf S1 3) (1027 % 1024) (List.replicate 10 0)) ∧
    (extract_gga (rotBuf S1 3) 5 (List.replicate 10 0)
      = extract_gga (rotBuf S1 3) 5 (List.replicate 10 0)) :=
  ⟨((c10_in_bounds (rotBuf S1 3) (rotBuf S1 3) 1027
      (List.replicate 10 0)).2.1).1,
   (((c10_in_bounds (rotBuf S1 3) (rotBuf S1 3) 5
      (List.replicate 10 0)).2.2) (fun _ _ => rfl)).1⟩

/-- C4: for every buffer and sentence_begin, `extract_gga` returns `false`
with the record untouched when the byte at offset 7 (mod 1024) is `',' = 44`
(empty time field) or when the byte at offset 18 is `','` (empty latitude
field); otherwise it returns `true` after writing all 10 record bytes — the
final record is the same whatever the 10 initial bytes were. -/
theorem c4_no_fix_paths (buf : Nat → Nat) (sb : Nat) (pb : List Nat) :
    (buf ((sb + 7) % 1024) = 44 → extract_gga buf sb pb = (false, pb)) ∧
    (buf ((sb + 7) % 1024) ≠ 44 → buf ((sb + 18) % 1024) = 44 →
      extract_gga buf sb pb = (false, pb)) ∧
    (buf ((sb + 7) % 1024) ≠ 44 → buf ((sb + 18) % 1024) ≠ 44 →
      pb.length = 10 →
      (extract_gga buf sb pb).1 = true ∧
      (extract_gga buf sb pb).2 =
        (extract_gga buf sb [0, 0, 0, 0, 0, 0, 0, 0, 0, 0]).2) := by
  refine ⟨?_, ?_, ?_⟩
  · intro h7
    simp only [extract_gga, bmask_eq_mod, mod1024_add, Nat.add_assoc,
      Nat.reduceAdd]
    rw [if_pos h7]
  · intro h7 h18
    simp only [extract_gga, bmask_eq_mod, mod1024_add, Nat.add_assoc,
      Nat.reduceAdd]
    rw [if_neg h7, if_pos h18]
  · intro h7 h18 hp
    obtain ⟨a, b, c, d, e, f, g, h, i, j, rfl⟩ := exists_ten pb hp
    by_cases hdot : buf ((sb + 51) % 1024) = 46
    · rw [extract_gga_run_single buf sb a b c d e f g h i j h7 h18 hdot,
        extract_gga_run_single buf sb 0 0 0 0 0 0 0 0 0 0 h7 h18 hdot]
      exact ⟨rfl, rfl⟩
    · rw [extract_gga_run_double buf sb a b c d e f g h i j h7 h18 hdot,
        extract_gga_run_double buf sb 0 0 0 0 0 0 0 0 0 0 h7 h18 hdot]
      exact ⟨rfl, rfl⟩

/-- Witness for C4: the empty-time sentence and the empty-latitude sentence
both yield `false` with the record untouched, and the fix sentence yields
`true` from a nonzero initial record. -/
theorem c4_witness :
    extract_gga (rotBuf S2 0) 0 [0, 0, 0, 0, 0, 0, 0, 0, 0, 0]
      = (false, [0, 0, 0, 0, 0, 0, 0, 0, 0, 0]) ∧
    extract_gga (rotBuf S3 0) 0 [0, 0, 0, 0, 0, 0, 0, 0, 0, 0]
      = (false, [0, 0, 0, 0, 0, 0, 0, 0, 0, 0]) ∧
    (extract_gga (rotBuf S1 0) 0 [1, 2, 3, 4, 5, 6, 7, 8, 9, 10]).1 = true :=
  ⟨(c4_no_fix_paths (rotBuf S2 0) 0 _).1 (by rfl),
   (c4_no_fix_paths (rotBuf S3 0) 0 _).2.1 (by decide) (by rfl),
   ((c4_no_fix_paths (rotBuf S1 0) 0 _).2.2 (by decide) (by decide)
     (by rfl)).1⟩

/-- C1 counterexample: on the known test sentence at offset 0 the code stores
into bytes 0-3 (big-endian) the value `2734219730`, which is ten times the
9-digit concatenation `273421973` that a `10^8 .. 10^0` weighting (the claim
as stated) would produce on the latitude digits `2,7,3,4,2,1,9,7,3`. -/
theorem c1_counterexample :
    (extract_gga (rotBuf S1 0) 0 [0, 0, 0, 0, 0, 0, 0, 0, 0, 0]).2.getD 0 0
        * 16777216 +
      (extract_gga (rotBuf S1 0) 0 [0, 0, 0, 0, 0, 0, 0, 0, 0, 0]).2.getD 1 0
        * 65536 +
      (extract_gga (rotBuf S1 0) 0 [0, 0, 0, 0, 0, 0, 0, 0, 0, 0]).2.getD 2 0
        * 256 +
      (extract_gga (rotBuf S1 0) 0 [0, 0, 0, 0, 0, 0, 0, 0, 0, 0]).2.getD 3 0
      = 2734219730 ∧
    2734219730 ≠ 2 * 100000000 + 7 * 10000000 + 3 * 1000000 + 4 * 100000 +
      2 * 10000 + 1 * 1000 + 9 * 100 + 7 * 10 + 3 := by
  constructor
  · rfl
  · decide

/-- C1 (amended): for every buffer and sentence_begin pointing at a
well-formed GGA sentence with a fix (nonempty time field, the nine latitude
digit positions holding ASCII digits `d0..d8`), `extract_gga` returns `true`
and stores into bytes 0-3 of the record, big-endian, the digits accumulated
with weights `10^9` down to `10^1` — i.e. ten times the 9-digit
concatenation — reduced modulo `2^32`, the decimal point being skipped, not
read. -/
theorem c1_latitude_encoding (buf : Nat → Nat) (sb : Nat) (pb : List Nat)
    (d0 d1 d2 d3 d4 d5 d6 d7 d8 : Nat)
    (hp : pb.length = 10)
    (ht : buf ((sb + 7) % 1024) ≠ 44)
    (h0 : buf ((sb + 18) % 1024) = 48 + d0) (e0 : d0 ≤ 9)
    (h1 : buf ((sb + 19) % 1024) = 48 + d1) (e1 : d1 ≤ 9)
    (h2 : buf ((sb + 20) % 1024) = 48 + d2) (e2 : d2 ≤ 9)
    (h3 : buf ((sb + 21) % 1024) = 48 + d3) (e3 : d3 ≤ 9)
    (h4 : buf ((sb + 23) % 1024) = 48 + d4) (e4 : d4 ≤ 9)
    (h5 : buf ((sb + 24) % 1024) = 48 + d5) (e5 : d5 ≤ 9)
    (h6 : buf ((sb + 25) % 1024) = 48 + d6) (e6 : d6 ≤ 9)
    (h7 : buf ((sb + 26) % 1024) = 48 + d7) (e7 : d7 ≤ 9)
    (h8 : buf ((sb + 27) % 1024) = 48 + d8) (e8 : d8 ≤ 9) :
    (extract_gga buf sb pb).1 = true ∧
    (extract_gga buf sb pb).2.getD 0 0 * 16777216 +
      (extract_gga buf sb pb).2.getD 1 0 * 65536 +
      (extract_gga buf sb pb).2.getD 2 0 * 256 +
      (extract_gga buf sb pb).2.getD 3 0 =
      (d0 * 1000000000 + d1 * 100000000 + d2 * 10000000 + d3 * 1000000 +
        d4 * 100000 + d5 * 10000 + d6 * 1000 + d7 * 100 + d8 * 10) %
        4294967296 := by
  have hl : ¬ buf ((sb + 18) % 1024) = 44 := by
    rw [h0]
    omega
  obtain ⟨a, b, c, d, e, f, g, h9, i, j, rfl⟩ := exists_ten pb hp
  have hlat := latAcc_digits buf sb d0 d1 d2 d3 d4 d5 d6 d7 d8 h0 e0 h1 e1
    h2 e2 h3 e3 h4 e4 h5 e5 h6 e6 h7 e7 h8 e8
  by_cases hdot : buf ((sb + 51) % 1024) = 46
  · rw [extract_gga_run_single buf sb a b c d e f g h9 i j ht hl hdot]
    simp only [snd_getD, getD10_0, getD10_1, getD10_2, getD10_3]
    rw [hlat]
    exact ⟨trivial, byte_recompose _ (Nat.mod_lt _ (by norm_num))⟩
  · rw [extract_gga_run_double buf sb a b c d e f g h9 i j ht hl hdot]
    simp only [snd_getD, getD10_0, getD10_1, getD10_2, getD10_3]
    rw [hlat]
    exact ⟨trivial, byte_recompose _ (Nat.mod_lt _ (by norm_num))⟩

/-- Witness for C1 (amended) on the known sentence at offset 0: latitude
digits `2,7,3,4,2,1,9,7,3` produce the stored value
`2734219730 = 273421973 * 10`. -/
theorem c1_witness :
    (extract_gga (rotBuf S1 0) 0 [0, 0, 0, 0, 0, 0, 0, 0, 0, 0]).1 = true ∧
    (extract_gga (rotBuf S1 0) 0 [0, 0, 0, 0, 0, 0, 0, 0, 0, 0]).2.getD 0 0
        * 16777216 +
      (extract_gga (rotBuf S1 0) 0 [0, 0, 0, 0, 0, 0, 0, 0, 0, 0]).2.getD 1 0
        * 65536 +
      (extract_gga (rotBuf S1 0) 0 [0, 0, 0, 0, 0, 0, 0, 0, 0, 0]).2.getD 2 0
        * 256 +
      (extract_gga (rotBuf S1 0) 0 [0, 0, 0, 0, 0, 0, 0, 0, 0, 0]).2.getD 3 0
      = (2 * 1000000000 + 7 * 100000000 + 3 * 10000000 + 4 * 1000000 +
          2 * 100000 + 1 * 10000 + 9 * 1000 + 7 * 100 + 3 * 10) %
          4294967296 :=
  c1_latitude_encoding (rotBuf S1 0) 0 [0, 0, 0, 0, 0, 0, 0, 0, 0, 0]
    2 7 3 4 2 1 9 7 3 (by rfl) (by decide)
    (by rfl) (by decide) (by rfl) (by decide) (by rfl) (by decide)
    (by rfl) (by decide) (by rfl) (by decide) (by rfl) (by decide)
    (by rfl) (by decide) (by rfl) (by decide) (by rfl) (by decide)

/-- C7: for every well-formed GGA sentence with a fix whose HDOP digit bytes
are ASCII digits, `extract_gga` selects the 1-digit case when the byte right
after the first HDOP digit (offset 51) is `'.' = 46` and the 2-digit case
otherwise, and stores into byte 9 the value
`min 255 (integer_part * 10 + first_fractional_digit)`. -/
theorem c7_hdop_encoding (buf : Nat → Nat) (sb : Nat) (pb : List Nat)
    (hp : pb.length = 10)
    (ht : buf ((sb + 7) % 1024) ≠ 44) (hl : buf ((sb + 18) % 1024) ≠ 44) :
    (∀ d1 f1 : Nat, buf ((sb + 51) % 1024) = 46 →
      buf ((sb + 50) % 1024) = 48 + d1 → d1 ≤ 9 →
      buf ((sb + 52) % 1024) = 48 + f1 → f1 ≤ 9 →
      (extract_gga buf sb pb).2.getD 9 0 = min 255 (d1 * 10 + f1)) ∧
    (∀ d1 d2 f1 : Nat,
      buf ((sb + 50) % 1024) = 48 + d1 → d1 ≤ 9 →
      buf ((sb + 51) % 1024) = 48 + d2 → d2 ≤ 9 →
      buf ((sb + 53) % 1024) = 48 + f1 → f1 ≤ 9 →
      (extract_gga buf sb pb).2.getD 9 0
        = min 255 ((d1 * 10 + d2) * 10 + f1)) := by
  obtain ⟨a, b, c, d, e, f, g, h, i, j, rfl⟩ := exists_ten pb hp
  constructor
  · intro d1 f1 hdot h50 hd1 h52 hf1
    rw [extract_gga_run_single buf sb a b c d e f g h i j ht hl hdot]
    simp only [snd_getD, getD10_9]
    exact hdopSingle_digits buf sb d1 f1 h50 hd1 h52 hf1
  · intro d1 d2 f1 h50 hd1 h51 hd2 h53 hf1
    have hdot : ¬ buf ((sb + 51) % 1024) = 46 := by
      rw [h51]
      omega
    rw [extract_gga_run_double buf sb a b c d e f g h i j ht hl hdot]
    simp only [snd_getD, getD10_9]
    exact hdopDouble_digits buf sb d1 d2 f1 h50 hd1 h51 hd2 h53 hf1

/-- Witness for C7 on the known sentence at offset 0: HDOP `2.8` takes the
single-digit branch and stores `min 255 28 = 28`. -/
theorem c7_witness :
    (extract_gga (rotBuf S1 0) 0 [0, 0, 0, 0, 0, 0, 0, 0, 0, 0]).2.getD 9 0
      = min 255 (2 * 10 + 8) :=
  (c7_hdop_encoding (rotBuf S1 0) 0 [0, 0, 0, 0, 0, 0, 0, 0, 0, 0]
    (by rfl) (by decide) (by decide)).1 2 8 (by rfl) (by rfl) (by decide)
    (by rfl) (by decide)

/-- C8: for every well-formed GGA sentence with a fix and any previous record
contents, byte 8 of the record has bit 1 set iff the latitude hemisphere byte
(offset 29) is `'N' = 78`, bit 0 set iff the longitude hemisphere byte
(offset 43) is `'E' = 69`, and all other bits 0 (the byte is below 4). -/
theorem c8_hemisphere_flags (buf : Nat → Nat) (sb : Nat) (pb : List Nat)
    (hp : pb.length = 10)
    (ht : buf ((sb + 7) % 1024) ≠ 44) (hl : buf ((sb + 18) % 1024) ≠ 44) :
    (Nat.testBit ((extract_gga buf sb pb).2.getD 8 0) 1 = true ↔
      buf ((sb + 29) % 1024) = 78) ∧
    (Nat.testBit ((extract_gga buf sb pb).2.getD 8 0) 0 = true ↔
      buf ((sb + 43) % 1024) = 69) ∧
    (extract_gga buf sb pb).2.getD 8 0 < 4 := by
  obtain ⟨a, b, c, d, e, f, g, h, i, j, rfl⟩ := exists_ten pb hp
  have h8 : (extract_gga buf sb [a, b, c, d, e, f, g, h, i, j]).2.getD 8 0
      = hemByte buf sb := by
    by_cases hdot : buf ((sb + 51) % 1024) = 46
    · rw [extract_gga_run_single buf sb a b c d e f g h i j ht hl hdot]
      rfl
    · rw [extract_gga_run_double buf sb a b c d e f g h i j ht hl hdot]
      rfl
  rw [h8, hemByte_eq]
  by_cases h1 : buf ((sb + 29) % 1024) = 78 <;>
    by_cases h2 : buf ((sb + 43) % 1024) = 69 <;>
      simp [h1, h2] <;> decide

/-- Witness for C8 on the known sentence at offset 0: the hemisphere pair
`S`/`E` leaves bit 1 clear and sets bit 0 of byte 8. -/
theorem c8_witness :
    Nat.testBit
      ((extract_gga (rotBuf S1 0) 0 [0, 0, 0, 0, 0, 0, 0, 0, 0, 0]).2.getD 8 0)
      0 = true ↔ rotBuf S1 0 ((0 + 43) % 1024) = 69 :=
  (c8_hemisphere_flags (rotBuf S1 0) 0 [0, 0, 0, 0, 0, 0, 0, 0, 0, 0]
    (by rfl) (by decide) (by decide)).2.1
